import Mathlib

/-!
Verification of the analysis orchestration and correlation pipeline of the
growqr video-analysis backend.

The Python source is shallowly embedded: pure functions from
`backend/main.py`, `backend/database/crud.py` and
`backend/processing/llm_analyzer.py` become Lean functions over `ℚ`-valued
times and confidences (Python floats), `ℤ` for Python `round` results and
`String` for labels and messages.  The background pipeline
`process_video_background` becomes a state-passing interpreter over an
explicit database state, parameterised by the outcome of every stage
adapter and every persistence call (each of which may raise, modelled as
`Except`/`Option` failure values).
-/

namespace GrowQR

/-- Python `round` on a rational: round to the nearest integer, ties to the
even integer (banker's rounding, the semantics of Python 3 `round`). -/
def pyRound (q : ℚ) : ℤ :=
  if q - ⌊q⌋ < 1/2 then ⌊q⌋
  else if 1/2 < q - ⌊q⌋ then ⌊q⌋ + 1
  else if ⌊q⌋ % 2 = 0 then ⌊q⌋ else ⌊q⌋ + 1

/-- An emotion sample as produced by `VideoProcessor.analyze_emotions`:
a dict `{"time": ..., "emotion": ..., "confidence": ...}`. -/
structure EmotionSample where
  time : ℚ
  emotion : String
  confidence : ℚ
  deriving DecidableEq, Repr

/-- A gesture sample as produced by `VideoProcessor.analyze_gestures`:
a dict `{"time": ..., "type": ..., "description": ..., "confidence": ...}`. -/
structure GestureSample where
  time : ℚ
  type : String
  description : String
  confidence : ℚ
  deriving DecidableEq, Repr

/-- A raw transcript segment as produced by `AudioProcessor.transcribe`:
a dict with keys `time`, optionally `end_time`, `text`, optionally
`confidence` (`.get` accesses in `main.py` treat the last two as optional). -/
structure RawSegment where
  time : ℚ
  end_time : Option ℚ
  text : String
  confidence : Option ℚ
  deriving DecidableEq, Repr

/-- A key moment dict `{"time": ..., "description": ..., "type": ...}` as
built by `identify_key_moments` (`main.py`); `time` is a Python `int`
because the source applies `round`. -/
structure KeyMoment where
  time : ℤ
  description : String
  type : String
  deriving DecidableEq, Repr

/-- Comparison used by `sorted(key_moments, key=lambda x: x["time"])`. -/
def keyMomentLE (a b : KeyMoment) : Bool := a.time ≤ b.time

/-- The emotion-derived moments appended by the first loop of
`identify_key_moments`: one per emotion sample with confidence
strictly above 0.85. -/
def emotionMoments (emotions : List EmotionSample) : List KeyMoment :=
  (emotions.filter (fun e => 0.85 < e.confidence)).map
    (fun e => ⟨pyRound e.time, "Peak " ++ e.emotion ++ " emotion detected", "emotion"⟩)

/-- The gesture-derived moments appended by the second loop of
`identify_key_moments`: one per gesture among `gestures[:3]`. -/
def gestureMoments (gestures : List GestureSample) : List KeyMoment :=
  (gestures.take 3).map (fun g => ⟨pyRound g.time, g.description, "gesture"⟩)

/-- Mirror of `identify_key_moments(emotions, gestures, transcript)` in `main.py`:
emotion peaks (confidence > 0.85), then the first three gestures, the
whole list stably sorted by rounded timestamp.  The `transcript`
argument is unused, as in the source. -/
def identify_key_moments (emotions : List EmotionSample) (gestures : List GestureSample)
    (transcript : List RawSegment) : List KeyMoment :=
  let _ := transcript
  (emotionMoments emotions ++ gestureMoments gestures).mergeSort keyMomentLE

/-- Mirror of `max([e["time"] for e in emotions]) if emotions else 0`, the expression
used both in `process_video_background` (stored duration) and, wrapped in
`round`, in `correlate_analysis`. -/
def maxEmotionTime (emotions : List EmotionSample) : ℚ :=
  ((emotions.map (·.time)).max?).getD 0

/-- The `total_duration` field of `correlate_analysis`'s summary:
`round(max([e["time"] for e in emotions])) if emotions else 0`. -/
def summaryTotalDuration (emotions : List EmotionSample) : ℤ :=
  if emotions.isEmpty then 0 else pyRound (maxEmotionTime emotions)

/-- The duration stored on the job by `process_video_background`:
`max([e["time"] for e in emotion_data]) if emotion_data else 0`
(no rounding). -/
def storedTotalDuration (emotions : List EmotionSample) : ℚ :=
  if emotions.isEmpty then 0 else maxEmotionTime emotions

/-- The `emotional_range` field of `correlate_analysis`'s summary:
`list(set([e["emotion"] for e in emotions]))`, modelled as duplicate
elimination on the label list (the set's iteration order is not
significant). -/
def emotional_range (emotions : List EmotionSample) : List String :=
  (emotions.map (·.emotion)).dedup

/-- The insights mapping handled by `LLMAnalyzer` and
`create_llm_insight`: a JSON object in the source, so every
`ContentInsights` key may be present or absent. -/
structure Insights where
  main_topics : Option (List String)
  rhetorical_techniques : Option (List String)
  argument_structure : Option String
  persuasive_elements : Option (List String)
  persuasion_score : Option ℚ
  overall_tone : Option String
  transcript_summary : Option String
  deriving DecidableEq, Repr

/-- The literal fallback dict returned by
`LLMAnalyzer.analyze_content` when the LLM call or the JSON parse
raises.  It has the six keys listed in the source and no
`transcript_summary` key. -/
def fallbackInsights : Insights where
  main_topics := some ["Climate change", "Individual action", "Hope"]
  rhetorical_techniques := some ["Repetition", "Emotional appeal", "Data citation"]
  argument_structure := some "Problem → Evidence → Solution → Call to action"
  persuasive_elements := some ["Personal stories", "Data visualization", "Emotional connection"]
  persuasion_score := some 8
  overall_tone := some "Urgent yet hopeful with strong call to action"
  transcript_summary := none

/-- Mirror of `LLMAnalyzer.analyze_content(transcript)`.  The network call is an
oracle (`llmResponse`), JSON decoding is an oracle (`parseJson`); the
`try` block covers both, and any failure yields the fallback dict.  The
transcript only feeds the prompt, so it does not influence the result
shape. -/
def analyze_content (llmResponse : Except String String)
    (parseJson : String → Option Insights) (transcript : List RawSegment) : Insights :=
  let _ := transcript
  match llmResponse with
  | .error _ => fallbackInsights
  | .ok txt =>
    match parseJson txt with
    | some insights => insights
    | none => fallbackInsights

/-- Mirror of `LLMAnalyzer.generate_summary(...)`: returns the LLM text, or the
literal string `"Summary generation failed."` when the call raises. -/
def generate_summary (llmResponse : Except String String) : String :=
  match llmResponse with
  | .ok s => s
  | .error _ => "Summary generation failed."

/-! ### Database records (`database/models.py`) and pure CRUD
(`database/crud.py`) -/

/-- The `AnalysisStatus` enum from `models.py`. -/
inductive AnalysisStatus where
  | pending
  | processing
  | completed
  | failed
  deriving DecidableEq, Repr

/-- The `VideoStatus` enum from `models.py`. -/
inductive VideoStatus where
  | pending
  | processing
  | completed
  | failed
  deriving DecidableEq, Repr

/-- The mutable columns of one `Analysis` row that the pipeline touches.
`completed_at` keeps the `now` value passed to the update. -/
structure AnalysisRec where
  status : AnalysisStatus
  progress : ℤ
  error_message : Option String
  completed_at : Option ℕ
  total_duration : Option ℚ
  deriving DecidableEq, Repr

/-- Mirror of `crud.update_analysis_status`, written as the net effect of its
sequential mutations: `status` is always set; `progress` is set when a
value is passed, but on `COMPLETED` the final assignment overrides it to
100; `error_message` is set only when the passed text is truthy
(non-`None` and non-empty, Python's `if error_message:`); `completed_at`
is stamped on `COMPLETED`. -/
def update_analysis_status (a : AnalysisRec) (status : AnalysisStatus)
    (progress : Option ℤ) (error_message : Option String) (now : ℕ) : AnalysisRec where
  status := status
  progress :=
    if status = AnalysisStatus.completed then 100 else progress.getD a.progress
  error_message :=
    match error_message with
    | some e => if e = "" then a.error_message else some e
    | none => a.error_message
  completed_at :=
    if status = AnalysisStatus.completed then some now else a.completed_at
  total_duration := a.total_duration

/-- An `Emotion` row as built by `create_emotions_bulk`. -/
structure EmotionRow where
  timestamp : ℚ
  emotion : String
  confidence : ℚ
  deriving DecidableEq, Repr

/-- A `Gesture` row as built by `create_gestures_bulk`. -/
structure GestureRow where
  timestamp : ℚ
  type : String
  description : String
  confidence : ℚ
  deriving DecidableEq, Repr

/-- A `Transcript` row as built by `create_transcripts_bulk`. -/
structure TranscriptRow where
  segment_index : ℕ
  start_time : ℚ
  end_time : ℚ
  text : String
  confidence : Option ℚ
  deriving DecidableEq, Repr

/-- A `KeyMoment` row as built by `create_key_moments_bulk`. -/
structure KeyMomentRow where
  timestamp : ℤ
  description : String
  type : String
  deriving DecidableEq, Repr

/-- An `LLMInsight` row as built by `create_llm_insight`. -/
structure LLMInsightRow where
  main_topics : List String
  rhetorical_techniques : List String
  argument_structure : String
  persuasive_elements : List String
  persuasion_score : ℚ
  overall_tone : String
  transcript_summary : String
  deriving DecidableEq, Repr

/-- Mirror of `crud.create_llm_insight`'s conversion of the insights dict to a row,
with the source's `.get` defaults. -/
def llmInsightRow (d : Insights) : LLMInsightRow where
  main_topics := d.main_topics.getD []
  rhetorical_techniques := d.rhetorical_techniques.getD []
  argument_structure := d.argument_structure.getD ""
  persuasive_elements := d.persuasive_elements.getD []
  persuasion_score := d.persuasion_score.getD 5
  overall_tone := d.overall_tone.getD "Neutral"
  transcript_summary := d.transcript_summary.getD ""

/-- The `emotions_for_db` list of `process_video_background`: field renames only. -/
def emotions_for_db (l : List EmotionSample) : List EmotionRow :=
  l.map fun e => ⟨e.time, e.emotion, e.confidence⟩

/-- The `gestures_for_db` list of `process_video_background`: field renames only. -/
def gestures_for_db (l : List GestureSample) : List GestureRow :=
  l.map fun g => ⟨g.time, g.type, g.description, g.confidence⟩

/-- The `transcripts_for_db` list of `process_video_background`: enumerates
`segment_index` and defaults a missing `end_time` to `start_time + 5`. -/
def transcripts_for_db (l : List RawSegment) : List TranscriptRow :=
  l.enum.map fun p => ⟨p.1, p.2.time, p.2.end_time.getD (p.2.time + 5), p.2.text, p.2.confidence⟩

/-- The `key_moments_for_db` list of `process_video_background`: field renames only. -/
def key_moments_for_db (l : List KeyMoment) : List KeyMomentRow :=
  l.map fun km => ⟨km.time, km.description, km.type⟩

/-- The recomputation of `emotional_range` from stored rows in
`crud.get_complete_analysis_data`:
`list(set([e.emotion.value for e in emotions])) if emotions else []`. -/
def report_emotional_range (rows : List EmotionRow) : List String :=
  if rows.isEmpty then [] else (rows.map (·.emotion)).dedup

/-- The summary dict built by `correlate_analysis`. -/
structure Summary where
  total_duration : ℤ
  emotional_range : List String
  key_moments : List KeyMoment
  top_themes : List String
  deriving DecidableEq, Repr

/-- The dict returned by `correlate_analysis`. -/
structure Report where
  emotions : List EmotionSample
  gestures : List GestureSample
  transcript : List RawSegment
  llm_insights : Insights
  summary : Summary
  deriving DecidableEq, Repr

/-- Mirror of `correlate_analysis(emotions, gestures, transcript, llm_insights)`
from `main.py`. -/
def correlate_analysis (emotions : List EmotionSample) (gestures : List GestureSample)
    (transcript : List RawSegment) (llm_insights : Insights) : Report where
  emotions := emotions
  gestures := gestures
  transcript := transcript
  llm_insights := llm_insights
  summary :=
    { total_duration := summaryTotalDuration emotions
      emotional_range := emotional_range emotions
      key_moments := identify_key_moments emotions gestures transcript
      top_themes := llm_insights.main_topics.getD [] }

/-! ### The background pipeline (`process_video_background` in `main.py`)

The orchestrator is a straight-line Python function in which every stage
adapter call and every database call may raise.  We embed it as a chain of
steps over an explicit state; the outcome of each adapter and the
failure behaviour of each database call are parameters (`Env`), so the
theorems quantify over every possible run.  A failing database call is
modelled as leaving the database unchanged (the raised exception
pre-empts the commit). -/

/-- The visible database state for one job, together with two histories:
the Progress Reporter log (`add_progress`) and the sequence of
`(status, progress)` pairs after each `update_analysis_status` call. -/
structure DB where
  analysis : AnalysisRec
  videoStatus : VideoStatus
  emotions : List EmotionRow
  gestures : List GestureRow
  transcripts : List TranscriptRow
  insight : Option LLMInsightRow
  keyMoments : List KeyMomentRow
  progressLog : List String
  trace : List (AnalysisStatus × ℤ)
  deriving DecidableEq, Repr

/-- The state right after the `analyze_video` endpoint has created the
records and dispatched the background task: analysis `PENDING` with
progress 0, video already set to `PROCESSING`. -/
def initialDB : DB where
  analysis := ⟨AnalysisStatus.pending, 0, none, none, none⟩
  videoStatus := VideoStatus.processing
  emotions := []
  gestures := []
  transcripts := []
  insight := none
  keyMoments := []
  progressLog := []
  trace := [(AnalysisStatus.pending, 0)]

/-- Effect of `add_progress` on the database state. -/
def dbAddLog (m : String) (db : DB) : DB :=
  { db with progressLog := db.progressLog ++ [m] }

/-- A successful `crud.update_analysis_status` call, recording the
resulting `(status, progress)` pair in the trace. -/
def dbUpdateAnalysis (status : AnalysisStatus) (progress : Option ℤ)
    (error_message : Option String) (db : DB) : DB :=
  let a := update_analysis_status db.analysis status progress error_message 0
  { db with analysis := a, trace := db.trace ++ [(a.status, a.progress)] }

/-- A successful `crud.update_video_status` call. -/
def dbUpdateVideo (v : VideoStatus) (db : DB) : DB :=
  { db with videoStatus := v }

/-- Locals of `process_video_background` that flow between stages. -/
structure Locals where
  emotion_data : List EmotionSample
  gesture_data : List GestureSample
  transcript : List RawSegment
  llm_insights : Insights
  deriving DecidableEq, Repr

/-- Pipeline state: database plus locals. -/
structure PState where
  db : DB
  loc : Locals
  deriving DecidableEq, Repr

/-- Short-circuiting sequencing: once a step has raised, later steps do
not run and the state at the failure point is kept. -/
def andThen (r : PState × Option String) (f : PState → PState × Option String) :
    PState × Option String :=
  match r with
  | (s, none) => f s
  | (s, some e) => (s, some e)

/-- A step that cannot raise. -/
def okStep (f : PState → PState) (s : PState) : PState × Option String :=
  (f s, none)

/-- A stage-adapter call: on success its value is stored in the locals,
on failure the exception text is raised. -/
def adapterStep {α : Type} (r : Except String α) (set : α → PState → PState)
    (s : PState) : PState × Option String :=
  match r with
  | .ok v => (set v s, none)
  | .error e => (s, some e)

/-- A database call: `fail = some e` makes it raise `e` with no state
change, otherwise the effect is applied. -/
def persistStep (fail : Option String) (eff : DB → DB) (s : PState) :
    PState × Option String :=
  match fail with
  | some e => (s, some e)
  | none => ({ s with db := eff s.db }, none)

/-- One possible run of the pipeline: the outcome of each stage adapter
(the detectors, audio extraction and transcription can raise; content
analysis and summarisation are oracles for the LLM round-trips and
cannot, per `llm_analyzer.py`) and a failure selector for each database
call in program order. -/
structure Env where
  videoName : String
  emotionsR : Except String (List EmotionSample)
  gesturesR : Except String (List GestureSample)
  extractR : Except String Unit
  transcribeR : Except String (List RawSegment)
  analyzeResp : Except String String
  parseJson : String → Option Insights
  summaryResp : Except String String
  failStatus10 : Option String
  failStatus30 : Option String
  failStatus40 : Option String
  failStatus60 : Option String
  failStatus75 : Option String
  failStatus85 : Option String
  failSetDuration : Option String
  failEmotionsBulk : Option String
  failGesturesBulk : Option String
  failTranscriptsBulk : Option String
  failInsightCreate : Option String
  failKeyMomentsBulk : Option String
  failStatusCompleted : Option String
  failVideoCompleted : Option String

/-- The `try` block of `process_video_background`, step by step in source
order.  Returns the state reached and the first raised exception text,
if any. -/
def runTry (env : Env) : PState × Option String :=
  let s0 : PState := ⟨initialDB, ⟨[], [], [], ⟨none, none, none, none, none, none, none⟩⟩⟩
  let r := okStep (fun s => { s with db := dbAddLog ("🎬 Processing video: " ++ env.videoName) s.db }) s0
  let r := andThen r (persistStep env.failStatus10
    (dbUpdateAnalysis AnalysisStatus.processing (some 10) none))
  let r := andThen r (okStep (fun s => { s with db := dbAddLog "😀 Analyzing emotions and gestures..." s.db }))
  let r := andThen r (adapterStep env.emotionsR (fun v s => { s with loc := { s.loc with emotion_data := v } }))
  let r := andThen r (okStep (fun s =>
    { s with db := dbAddLog ("✅ Detected " ++ toString s.loc.emotion_data.length ++ " emotion samples") s.db }))
  let r := andThen r (persistStep env.failStatus30
    (dbUpdateAnalysis AnalysisStatus.processing (some 30) none))
  let r := andThen r (adapterStep env.gesturesR (fun v s => { s with loc := { s.loc with gesture_data := v } }))
  let r := andThen r (okStep (fun s =>
    { s with db := dbAddLog ("✅ Detected " ++ toString s.loc.gesture_data.length ++ " gestures") s.db }))
  let r := andThen r (persistStep env.failStatus40
    (dbUpdateAnalysis AnalysisStatus.processing (some 40) none))
  let r := andThen r (okStep (fun s => { s with db := dbAddLog "🎤 Extracting and transcribing audio..." s.db }))
  let r := andThen r (adapterStep env.extractR (fun _ s => s))
  let r := andThen r (okStep (fun s => { s with db := dbAddLog "✅ Audio extracted successfully" s.db }))
  let r := andThen r (adapterStep env.transcribeR (fun v s => { s with loc := { s.loc with transcript := v } }))
  let r := andThen r (okStep (fun s =>
    { s with db := dbAddLog ("✅ Transcribed " ++ toString s.loc.transcript.length ++ " segments") s.db }))
  let r := andThen r (persistStep env.failStatus60
    (dbUpdateAnalysis AnalysisStatus.processing (some 60) none))
  let r := andThen r (okStep (fun s => { s with db := dbAddLog "🧠 Performing AI content analysis..." s.db }))
  let r := andThen r (okStep (fun s =>
    { s with loc := { s.loc with llm_insights := analyze_content env.analyzeResp env.parseJson s.loc.transcript } }))
  let r := andThen r (okStep (fun s => { s with db := dbAddLog "✅ AI analysis completed" s.db }))
  let r := andThen r (persistStep env.failStatus75
    (dbUpdateAnalysis AnalysisStatus.processing (some 75) none))
  let r := andThen r (okStep (fun s => { s with db := dbAddLog "📝 Generating AI summary..." s.db }))
  let r := andThen r (okStep (fun s =>
    { s with loc := { s.loc with llm_insights :=
      { s.loc.llm_insights with transcript_summary := some (generate_summary env.summaryResp) } } }))
  let r := andThen r (okStep (fun s => { s with db := dbAddLog "✅ AI summary generated" s.db }))
  let r := andThen r (persistStep env.failStatus85
    (dbUpdateAnalysis AnalysisStatus.processing (some 85) none))
  let r := andThen r (okStep (fun s => { s with db := dbAddLog "💾 Saving results to database..." s.db }))
  let r := andThen r (fun s => persistStep env.failSetDuration
    (fun db => { db with analysis :=
      { db.analysis with total_duration := some (storedTotalDuration s.loc.emotion_data) } }) s)
  let r := andThen r (fun s => persistStep env.failEmotionsBulk
    (fun db => { db with emotions := emotions_for_db s.loc.emotion_data }) s)
  let r := andThen r (fun s => persistStep env.failGesturesBulk
    (fun db => { db with gestures := gestures_for_db s.loc.gesture_data }) s)
  let r := andThen r (fun s => persistStep env.failTranscriptsBulk
    (fun db => { db with transcripts := transcripts_for_db s.loc.transcript }) s)
  let r := andThen r (fun s => persistStep env.failInsightCreate
    (fun db => { db with insight := some (llmInsightRow s.loc.llm_insights) }) s)
  let r := andThen r (fun s => persistStep env.failKeyMomentsBulk
    (fun db =>
      let kms := identify_key_moments s.loc.emotion_data s.loc.gesture_data s.loc.transcript
      { db with keyMoments := key_moments_for_db kms }) s)
  let r := andThen r (persistStep env.failStatusCompleted
    (dbUpdateAnalysis AnalysisStatus.completed (some 100) none))
  let r := andThen r (persistStep env.failVideoCompleted
    (dbUpdateVideo VideoStatus.completed))
  let r := andThen r (okStep (fun s => { s with db := dbAddLog "✅ Analysis completed successfully!" s.db }))
  r

/-- Mirror of `process_video_background`: runs the `try` block; the `except`
handler logs the error, marks the analysis `FAILED` with the captured
text, and marks the video `FAILED`. -/
def process_video_background (env : Env) : DB :=
  match runTry env with
  | (s, none) => s.db
  | (s, some e) =>
    let db1 := dbAddLog ("❌ Error processing video: " ++ e) s.db
    let db2 := dbUpdateAnalysis AnalysisStatus.failed none (some e) db1
    dbUpdateVideo VideoStatus.failed db2

/-- The first exception raised during a run, if any. -/
def firstError (env : Env) : Option String :=
  (runTry env).2

/-- The emotion samples a run works with (meaningful once
`detect_emotions` has succeeded). -/
def adapterEmotions (env : Env) : List EmotionSample :=
  match env.emotionsR with
  | .ok v => v
  | .error _ => []

/-- The gesture samples a run works with. -/
def adapterGestures (env : Env) : List GestureSample :=
  match env.gesturesR with
  | .ok v => v
  | .error _ => []

/-- The transcript a run works with. -/
def adapterTranscript (env : Env) : List RawSegment :=
  match env.transcribeR with
  | .ok v => v
  | .error _ => []

/-- The insights dict as it stands when step 7 persists it: the content
analysis result with the generated summary attached. -/
def pipelineInsights (env : Env) : Insights :=
  { analyze_content env.analyzeResp env.parseJson (adapterTranscript env) with
    transcript_summary := some (generate_summary env.summaryResp) }

/-! ### Progress streaming (`stream_progress` in `main.py`)

The SSE generator polls the in-memory log, sends every not-yet-sent
message as `(index, message)`, and after draining the log checks
`any("Analysis completed" in msg or "error" in msg.lower() for msg in messages)`;
if the check passes it emits a `DONE` event and stops.  We model one
subscription against a run of the log: `batches` is the content of the
log at each successive poll iteration (appends happen between
iterations, so each batch extends the previous one). -/

/-- Whether `pat` occurs as a contiguous run starting at some position of
the second list. -/
def containsFrom (pat : List Char) : List Char → Bool
  | [] => pat.isPrefixOf []
  | c :: cs => pat.isPrefixOf (c :: cs) || containsFrom pat cs

/-- Python `pat in s` on strings: code-point substring containment. -/
def pyContains (s pat : String) : Bool :=
  containsFrom pat.toList s.toList

/-- Python `s.lower()` (ASCII case folding suffices for the sentinel). -/
def pyLower (s : String) : String :=
  ⟨s.toList.map Char.toLower⟩

/-- The per-message completion test of `stream_progress`:
`"Analysis completed" in msg or "error" in msg.lower()`.  Note the first
containment test is case-sensitive in the source. -/
def sentinelHit (msg : String) : Bool :=
  pyContains msg "Analysis completed" || pyContains (pyLower msg) "error"

/-- Modelled from the spec (§4.1), for comparison with the code: the
completion sentinel as the spec words it — the message contains
"analysis completed" or an error indicator as a case-insensitive
substring. -/
def specSentinelHit (msg : String) : Bool :=
  pyContains (pyLower msg) "analysis completed" || pyContains (pyLower msg) "error"

/-- The `any(...)` check over the whole log. -/
def checkDone (messages : List String) : Bool :=
  messages.any sentinelHit

/-- One subscription, starting with `idx` messages already sent, run
against the given sequence of log snapshots.  Returns the emitted
`(index, message)` events and whether the `DONE` sentinel ended the
stream. -/
def streamEvents (idx : ℕ) : List (List String) → List (ℕ × String) × Bool
  | [] => ([], false)
  | msgs :: rest =>
    let fresh := List.enumFrom idx (msgs.drop idx)
    let idx' := max idx msgs.length
    if checkDone msgs then
      (fresh ++ [(idx', "DONE")], true)
    else
      let p := streamEvents idx' rest
      (fresh ++ p.1, p.2)

/-- A full subscription from the start of the log. -/
def stream_progress (batches : List (List String)) : List (ℕ × String) × Bool :=
  streamEvents 0 batches

/-! ### Helper lemmas -/

theorem pyRound_intCast (n : ℤ) : pyRound (n : ℚ) = n := by
  simp [pyRound]

theorem keyMomentLE_trans (a b c : KeyMoment) :
    keyMomentLE a b → keyMomentLE b c → keyMomentLE a c := by
  simp only [keyMomentLE, decide_eq_true_eq]
  exact le_trans

theorem keyMomentLE_total (a b : KeyMoment) : keyMomentLE a b || keyMomentLE b a := by
  simp only [keyMomentLE, Bool.or_eq_true, decide_eq_true_eq]
  exact le_total a.time b.time

/-! ### C10 — `update_analysis_status` with `COMPLETED` -/

/-- C10: for every analysis record, progress argument (including `none`
or a value other than 100) and error argument, updating with status
`completed` leaves progress exactly 100, a set completion timestamp,
and status `completed`: the completed status overrides the passed
progress. -/
theorem completed_forces_progress (a : AnalysisRec) (p : Option ℤ)
    (e : Option String) (now : ℕ) :
    (update_analysis_status a AnalysisStatus.completed p e now).progress = 100 ∧
    (update_analysis_status a AnalysisStatus.completed p e now).completed_at = some now ∧
    (update_analysis_status a AnalysisStatus.completed p e now).status = AnalysisStatus.completed := by
  refine ⟨by simp [update_analysis_status], by simp [update_analysis_status], rfl⟩

/-! ### C9 — analyzer fallbacks -/

/-- C9 (amended): `analyze_content` is total (it cannot raise: the model
returns an `Insights` value for every oracle outcome); when the LLM call
raises or the JSON parse fails it returns the literal fallback dict,
which carries the six keys `main_topics`, `rhetorical_techniques`,
`argument_structure`, `persuasive_elements`, `persuasion_score`,
`overall_tone`, but no `transcript_summary`; and `generate_summary`
returns the literal string `"Summary generation failed."` when its call
raises. -/
theorem analyzer_fallback_spec :
    (∀ e parse t, analyze_content (Except.error e) parse t = fallbackInsights) ∧
    (∀ txt parse t, parse txt = none →
      analyze_content (Except.ok txt) parse t = fallbackInsights) ∧
    (fallbackInsights.main_topics.isSome ∧ fallbackInsights.rhetorical_techniques.isSome ∧
      fallbackInsights.argument_structure.isSome ∧ fallbackInsights.persuasive_elements.isSome ∧
      fallbackInsights.persuasion_score.isSome ∧ fallbackInsights.overall_tone.isSome ∧
      fallbackInsights.transcript_summary = none) ∧
    (∀ e, generate_summary (Except.error e) = "Summary generation failed.") := by
  refine ⟨fun e parse t => rfl, fun txt parse t h => ?_, ?_, fun e => rfl⟩
  · simp [analyze_content, h]
  · exact ⟨rfl, rfl, rfl, rfl, rfl, rfl, rfl⟩

/-- Witness for `analyzer_fallback_spec` at a concrete failing parse. -/
theorem analyzer_fallback_spec_witness :
    (fun _ : String => (none : Option Insights)) "not json" = none ∧
    analyze_content (Except.ok "not json") (fun _ => none) [] = fallbackInsights :=
  ⟨rfl, analyzer_fallback_spec.2.1 "not json" (fun _ => none) [] rfl⟩

/-- Counterexample to C9 as stated: on an LLM failure `analyze_content`
returns the fallback dict, and that dict has no `transcript_summary`
key, so it does not contain all `ContentInsights` fields. -/
theorem analyzer_fallback_missing_summary_cex :
    analyze_content (Except.error "API error") (fun _ => none) [] = fallbackInsights ∧
    fallbackInsights.transcript_summary = none :=
  ⟨rfl, rfl⟩

/-! ### C7 — transcript persistence -/

/-- C7: the transcript rows built by the orchestrator have
`segment_index` equal to the position in the transcription output, the
`end_time` of a segment lacking one defaults to `start_time + 5`, and an
explicit `end_time` is kept unchanged. -/
theorem transcript_rows_spec (l : List RawSegment) :
    (transcripts_for_db l).length = l.length ∧
    (∀ i : ℕ, ∀ seg : RawSegment, l[i]? = some seg →
      (transcripts_for_db l)[i]? =
        some ⟨i, seg.time, seg.end_time.getD (seg.time + 5), seg.text, seg.confidence⟩) ∧
    (∀ i : ℕ, ∀ seg : RawSegment, ∀ et : ℚ, l[i]? = some seg → seg.end_time = some et →
      ((transcripts_for_db l)[i]?.map (·.end_time)) = some et) := by
  refine ⟨?_, fun i seg h => ?_, fun i seg et h het => ?_⟩
  · simp [transcripts_for_db]
  · simp [transcripts_for_db, h]
  · simp [transcripts_for_db, h, het]

/-- Witness for `transcript_rows_spec` at a one-segment transcript with
an explicit `end_time`. -/
theorem transcript_rows_spec_witness :
    ([⟨2, some 9, "hello", none⟩] : List RawSegment)[0]? = some ⟨2, some 9, "hello", none⟩ ∧
    (transcripts_for_db [⟨2, some 9, "hello", none⟩])[0]? =
      some ⟨0, 2, (some (9 : ℚ)).getD (2 + 5), "hello", none⟩ :=
  ⟨rfl, (transcript_rows_spec [⟨2, some 9, "hello", none⟩]).2.1 0 ⟨2, some 9, "hello", none⟩ rfl⟩

/-! ### C6 — `emotional_range` -/

/-- C6: `emotional_range` contains each emotion label of the input
exactly once (it is duplicate-free, and a label is in it exactly when
some input sample carries it); it is what `correlate_analysis` puts in
its summary; and the report query's recomputation from the stored rows
(in any order the database may return them) yields the same set of
labels. -/
theorem emotionalRange_spec (emotions : List EmotionSample) (rows : List EmotionRow)
    (gestures : List GestureSample) (transcript : List RawSegment) (ins : Insights)
    (hrows : rows.Perm (emotions_for_db emotions)) :
    (emotional_range emotions).Nodup ∧
    (∀ lbl, lbl ∈ emotional_range emotions ↔ lbl ∈ emotions.map (·.emotion)) ∧
    (correlate_analysis emotions gestures transcript ins).summary.emotional_range
      = emotional_range emotions ∧
    (report_emotional_range rows).toFinset = (emotional_range emotions).toFinset := by
  refine ⟨List.nodup_dedup _, fun lbl => List.mem_dedup, rfl, ?_⟩
  have hmap : (rows.map (·.emotion)).Perm (emotions.map (·.emotion)) := by
    have := hrows.map (·.emotion)
    simpa [emotions_for_db, List.map_map, Function.comp] using this
  rw [List.toFinset.ext_iff]
  intro x
  by_cases hE : rows.isEmpty
  · have hr : rows = [] := List.isEmpty_iff.1 hE
    have hme : emotions.map (·.emotion) = [] := by
      rw [hr] at hmap
      exact hmap.symm.eq_nil
    simp [report_emotional_range, emotional_range, hE, hme]
  · simp only [report_emotional_range, hE, Bool.false_eq_true, if_false, emotional_range,
      List.mem_dedup]
    exact hmap.mem_iff

/-- Witness for `emotionalRange_spec` at a duplicated-label input. -/
theorem emotionalRange_spec_witness :
    (emotions_for_db [⟨1, "happy", 1⟩, ⟨2, "happy", 1⟩]).Perm
      (emotions_for_db [⟨1, "happy", 1⟩, ⟨2, "happy", 1⟩]) ∧
    (emotional_range [⟨1, "happy", 1⟩, ⟨2, "happy", 1⟩]).Nodup :=
  ⟨List.Perm.refl _,
    (emotionalRange_spec [⟨1, "happy", 1⟩, ⟨2, "happy", 1⟩] _ [] []
      ⟨none, none, none, none, none, none, none⟩ (List.Perm.refl _)).1⟩

/-! ### C3 — `total_duration` -/

/-- C3 (amended): the duration stored on the job equals the exact
maximum emotion timestamp (0 when the list is empty), while the
Correlator's summary `total_duration` is the Python-rounded maximum
(0 when empty); the two agree whenever the timestamps are integers (as
the detector contract guarantees), but not in general. -/
theorem totalDuration_spec (emotions : List EmotionSample)
    (gestures : List GestureSample) (transcript : List RawSegment) (ins : Insights) :
    (emotions = [] → storedTotalDuration emotions = 0 ∧ summaryTotalDuration emotions = 0) ∧
    (emotions ≠ [] →
      storedTotalDuration emotions ∈ emotions.map (·.time) ∧
      (∀ e ∈ emotions, e.time ≤ storedTotalDuration emotions) ∧
      summaryTotalDuration emotions = pyRound (storedTotalDuration emotions)) ∧
    ((∀ e ∈ emotions, ∃ n : ℤ, e.time = (n : ℚ)) →
      (summaryTotalDuration emotions : ℚ) = storedTotalDuration emotions) ∧
    (correlate_analysis emotions gestures transcript ins).summary.total_duration
      = summaryTotalDuration emotions := by
  have hmax : ∀ m : ℚ, (emotions.map (·.time)).max? = some m →
      m ∈ emotions.map (·.time) ∧ ∀ b ∈ emotions.map (·.time), b ≤ m := by
    intro m hm
    refine ⟨List.max?_mem (fun a b => max_choice a b) hm, ?_⟩
    exact (List.max?_le_iff (fun a b c => max_le_iff) hm).1 le_rfl
  refine ⟨?_, ?_, ?_, rfl⟩
  · rintro rfl
    simp [storedTotalDuration, summaryTotalDuration]
  · intro hne
    rcases hsome : (emotions.map (·.time)).max? with _ | m
    · rw [List.max?_eq_none_iff] at hsome
      exact absurd (List.map_eq_nil_iff.1 hsome) hne
    · obtain ⟨hmem, hle⟩ := hmax m hsome
      refine ⟨?_, ?_, ?_⟩
      · simpa [storedTotalDuration, List.isEmpty_iff, hne, maxEmotionTime, hsome] using hmem
      · intro e he
        have : e.time ∈ emotions.map (·.time) := List.mem_map_of_mem _ he
        simpa [storedTotalDuration, List.isEmpty_iff, hne, maxEmotionTime, hsome] using hle _ this
      · simp [storedTotalDuration, summaryTotalDuration, List.isEmpty_iff, hne]
  · intro hint
    rcases hcase : emotions with _ | ⟨e₀, es⟩
    · simp [storedTotalDuration, summaryTotalDuration]
    · rw [← hcase]
      have hne' : ¬ emotions.isEmpty := by simp [hcase]
      rcases hsome : (emotions.map (·.time)).max? with _ | m
      · rw [List.max?_eq_none_iff] at hsome
        simp [hcase] at hsome
      · obtain ⟨hmem, -⟩ := hmax m hsome
        obtain ⟨e, hmem', rfl⟩ := List.mem_map.1 hmem
        obtain ⟨n, hn⟩ := hint e hmem'
        simp [storedTotalDuration, summaryTotalDuration, maxEmotionTime, hne', hsome, hn,
          pyRound_intCast]

/-- Witness for `totalDuration_spec` at a non-empty, integral-time
input. -/
theorem totalDuration_spec_witness :
    ([⟨2, "happy", 1⟩] : List EmotionSample) ≠ [] ∧
    (storedTotalDuration [⟨2, "happy", 1⟩] ∈ ([⟨2, "happy", 1⟩] : List EmotionSample).map (·.time) ∧
      (∀ e ∈ ([⟨2, "happy", 1⟩] : List EmotionSample), e.time ≤ storedTotalDuration [⟨2, "happy", 1⟩]) ∧
      summaryTotalDuration [⟨2, "happy", 1⟩] = pyRound (storedTotalDuration [⟨2, "happy", 1⟩])) :=
  ⟨by simp,
    (totalDuration_spec [⟨2, "happy", 1⟩] [] [] ⟨none, none, none, none, none, none, none⟩).2.1
      (by simp)⟩

/-- Counterexample to C3 as stated: with the single emotion sample at
time 1/2, the stored duration is the exact maximum 1/2 but the
Correlator's summary `total_duration` is `round(1/2) = 0`, not the
maximum timestamp. -/
theorem totalDuration_rounds_cex :
    storedTotalDuration [⟨1/2, "happy", 1⟩] = 1/2 ∧
    summaryTotalDuration [⟨1/2, "happy", 1⟩] = 0 ∧
    ((summaryTotalDuration [⟨1/2, "happy", 1⟩] : ℚ) ≠ storedTotalDuration [⟨1/2, "happy", 1⟩]) := by
  norm_num [storedTotalDuration, summaryTotalDuration, maxEmotionTime, pyRound, List.max?]

/-! ### C1 — key-moment contents -/

theorem emotionMoments_filter_emotion (emotions : List EmotionSample) :
    (emotionMoments emotions).filter (fun km => km.type == "emotion") = emotionMoments emotions :=
  List.filter_eq_self.2 (by
    intro km hkm
    unfold emotionMoments at hkm
    obtain ⟨e, -, rfl⟩ := List.mem_map.1 hkm
    simp)

theorem emotionMoments_filter_gesture (emotions : List EmotionSample) :
    (emotionMoments emotions).filter (fun km => km.type == "gesture") = [] :=
  List.filter_eq_nil_iff.2 (by
    intro km hkm
    unfold emotionMoments at hkm
    obtain ⟨e, -, rfl⟩ := List.mem_map.1 hkm
    simp)

theorem gestureMoments_filter_gesture (gestures : List GestureSample) :
    (gestureMoments gestures).filter (fun km => km.type == "gesture") = gestureMoments gestures :=
  List.filter_eq_self.2 (by
    intro km hkm
    unfold gestureMoments at hkm
    obtain ⟨g, -, rfl⟩ := List.mem_map.1 hkm
    simp)

theorem gestureMoments_filter_emotion (gestures : List GestureSample) :
    (gestureMoments gestures).filter (fun km => km.type == "emotion") = [] :=
  List.filter_eq_nil_iff.2 (by
    intro km hkm
    unfold gestureMoments at hkm
    obtain ⟨g, -, rfl⟩ := List.mem_map.1 hkm
    simp)

/-- C1: the key-moments list is, up to the final sort, exactly one
emotion moment (with the "Peak … emotion detected" description) per
emotion sample of confidence strictly above 0.85, plus one gesture
moment (with the gesture's own description) per gesture among the first
`min 3 (length)` gestures, and nothing else.  In particular the
emotion-typed moments are in bijection with the high-confidence samples,
the gesture-typed moments number `min 3 (length gestures)`, and the
total length is their sum. -/
theorem keyMoments_content (emotions : List EmotionSample) (gestures : List GestureSample)
    (transcript : List RawSegment) :
    (identify_key_moments emotions gestures transcript).Perm
      (emotionMoments emotions ++ gestureMoments gestures) ∧
    ((identify_key_moments emotions gestures transcript).filter
        (fun km => km.type == "emotion")).length
      = (emotions.filter (fun e => 0.85 < e.confidence)).length ∧
    ((identify_key_moments emotions gestures transcript).filter
        (fun km => km.type == "gesture")).length
      = min 3 gestures.length ∧
    (identify_key_moments emotions gestures transcript).length
      = (emotions.filter (fun e => 0.85 < e.confidence)).length + min 3 gestures.length := by
  have hperm : (identify_key_moments emotions gestures transcript).Perm
      (emotionMoments emotions ++ gestureMoments gestures) := by
    simpa [identify_key_moments] using
      List.mergeSort_perm (emotionMoments emotions ++ gestureMoments gestures) keyMomentLE
  have hlenE : (emotionMoments emotions).length
      = (emotions.filter (fun e => 0.85 < e.confidence)).length := by
    simp [emotionMoments]
  have hlenG : (gestureMoments gestures).length = min 3 gestures.length := by
    simp [gestureMoments]
  refine ⟨hperm, ?_, ?_, ?_⟩
  · have := (hperm.filter (fun km => km.type == "emotion")).length_eq
    rw [this, List.filter_append, emotionMoments_filter_emotion, gestureMoments_filter_emotion,
      List.append_nil, hlenE]
  · have := (hperm.filter (fun km => km.type == "gesture")).length_eq
    rw [this, List.filter_append, emotionMoments_filter_gesture, gestureMoments_filter_gesture,
      List.nil_append, hlenG]
  · rw [hperm.length_eq, List.length_append, hlenE, hlenG]

/-! ### C2 — key-moment timestamps and ordering -/

/-- C2 (amended): each key moment carries the Python-rounded timestamp of
its source sample, so on the spec's concrete input the gesture at time
0.5 yields a moment at time 0 (`round(0.5) = 0`); the combined list is
sorted ascending by that rounded timestamp, and ties keep the insertion
order (emotion-derived moments were inserted before gesture-derived
ones), stated as stability of the final sort. -/
theorem keyMoments_order (emotions : List EmotionSample) (gestures : List GestureSample)
    (transcript : List RawSegment) :
    identify_key_moments [⟨1, "happy", 0.9⟩, ⟨2, "serious", 0.5⟩]
      [⟨3, "pointing", "A", 0.8⟩, ⟨1/2, "hand_raise", "B", 0.85⟩] []
      = [⟨0, "B", "gesture"⟩, ⟨1, "Peak happy emotion detected", "emotion"⟩,
         ⟨3, "A", "gesture"⟩] ∧
    (identify_key_moments emotions gestures transcript).Pairwise
      (fun a b => a.time ≤ b.time) ∧
    (∀ a b : KeyMoment, [a, b].Sublist (emotionMoments emotions ++ gestureMoments gestures) →
      a.time ≤ b.time →
      [a, b].Sublist (identify_key_moments emotions gestures transcript)) := by
  refine ⟨?_, ?_, ?_⟩
  · have h1 : pyRound 1 = 1 := by norm_num [pyRound]
    have h3 : pyRound 3 = 3 := by norm_num [pyRound]
    have hh : pyRound (1/2) = 0 := by norm_num [pyRound]
    have c1 : ((0.85 : ℚ) < 0.9) = True := by norm_num
    have c2 : ((0.85 : ℚ) < 0.5) = False := by norm_num
    simp only [identify_key_moments, emotionMoments, gestureMoments, List.filter, List.take,
      List.map, c1, c2, decide_True, decide_False, h1, h3, hh]
    simp [List.mergeSort, List.splitInTwo, List.merge, keyMomentLE]
  · have := List.sorted_mergeSort keyMomentLE_trans keyMomentLE_total
      (emotionMoments emotions ++ gestureMoments gestures)
    refine List.Pairwise.imp ?_ (by simpa [identify_key_moments] using this)
    intro a b h
    simpa [keyMomentLE] using h
  · intro a b hsub hab
    have hle : keyMomentLE a b := by simpa [keyMomentLE] using hab
    simpa [identify_key_moments] using
      List.pair_sublist_mergeSort keyMomentLE_trans keyMomentLE_total hle hsub

/-- Witness for `keyMoments_order`: two equal-time gesture moments stay
in insertion order through the sort. -/
theorem keyMoments_order_witness :
    ([⟨pyRound 1, "A", "gesture"⟩, ⟨pyRound 1, "B", "gesture"⟩] : List KeyMoment).Sublist
      (emotionMoments [] ++
        gestureMoments [⟨1, "pointing", "A", 1⟩, ⟨1, "hand_raise", "B", 1⟩]) ∧
    pyRound 1 ≤ pyRound 1 ∧
    ([⟨pyRound 1, "A", "gesture"⟩, ⟨pyRound 1, "B", "gesture"⟩] : List KeyMoment).Sublist
      (identify_key_moments [] [⟨1, "pointing", "A", 1⟩, ⟨1, "hand_raise", "B", 1⟩] []) := by
  have hpre : (emotionMoments [] ++
      gestureMoments [⟨1, "pointing", "A", 1⟩, ⟨1, "hand_raise", "B", 1⟩])
      = [⟨pyRound 1, "A", "gesture"⟩, ⟨pyRound 1, "B", "gesture"⟩] := by
    simp [emotionMoments, gestureMoments]
  refine ⟨by rw [hpre], le_refl _, ?_⟩
  exact (keyMoments_order [] [⟨1, "pointing", "A", 1⟩, ⟨1, "hand_raise", "B", 1⟩] []).2.2 _ _
    (by rw [hpre]) (le_refl _)

/-- Counterexample to C2 as stated: on the spec's concrete input the
moment derived from gesture "B" (source timestamp 0.5) carries timestamp
0, not the source sample's own timestamp — `identify_key_moments`
rounds every timestamp with Python `round`. -/
theorem keyMoments_rounds_cex :
    ((identify_key_moments [⟨1, "happy", 0.9⟩, ⟨2, "serious", 0.5⟩]
        [⟨3, "pointing", "A", 0.8⟩, ⟨1/2, "hand_raise", "B", 0.85⟩] []).map
      (fun km => ((km.time : ℚ), km.description)))
      = [(0, "B"), (1, "Peak happy emotion detected"), (3, "A")] ∧
    ((0 : ℚ), "B") ≠ ((1/2 : ℚ), "B") := by
  constructor
  · have h1 : pyRound 1 = 1 := by norm_num [pyRound]
    have h3 : pyRound 3 = 3 := by norm_num [pyRound]
    have hh : pyRound (1/2) = 0 := by norm_num [pyRound]
    have c1 : ((0.85 : ℚ) < 0.9) = True := by norm_num
    have c2 : ((0.85 : ℚ) < 0.5) = False := by norm_num
    simp only [identify_key_moments, emotionMoments, gestureMoments, List.filter, List.take,
      List.map, c1, c2, decide_True, decide_False, h1, h3, hh]
    simp [List.mergeSort, List.splitInTwo, List.merge, keyMomentLE]
  · intro h
    have := congrArg Prod.fst h
    norm_num at this

/-! ### Facts about `update_analysis_status` used by the pipeline
theorems -/

theorem update_status_status (a : AnalysisRec) (st : AnalysisStatus) (p : Option ℤ)
    (e : Option String) (now : ℕ) : (update_analysis_status a st p e now).status = st :=
  rfl

theorem update_status_progress_some (a : AnalysisRec) (st : AnalysisStatus) (p : ℤ)
    (e : Option String) (now : ℕ) (h : ¬ st = AnalysisStatus.completed) :
    (update_analysis_status a st (some p) e now).progress = p := by
  simp [update_analysis_status, h]

theorem update_status_progress_none (a : AnalysisRec) (st : AnalysisStatus)
    (e : Option String) (now : ℕ) (h : ¬ st = AnalysisStatus.completed) :
    (update_analysis_status a st none e now).progress = a.progress := by
  simp [update_analysis_status, h]

theorem update_status_completed_progress (a : AnalysisRec) (p : Option ℤ)
    (e : Option String) (now : ℕ) :
    (update_analysis_status a AnalysisStatus.completed p e now).progress = 100 := by
  simp [update_analysis_status]

theorem update_status_error_none (a : AnalysisRec) (st : AnalysisStatus) (p : Option ℤ)
    (now : ℕ) : (update_analysis_status a st p none now).error_message = a.error_message :=
  rfl

theorem update_status_error_some (a : AnalysisRec) (st : AnalysisStatus) (p : Option ℤ)
    (e : String) (now : ℕ) (he : ¬ e = "") :
    (update_analysis_status a st p (some e) now).error_message = some e := by
  simp [update_analysis_status, he]

theorem update_status_error_empty (a : AnalysisRec) (st : AnalysisStatus) (p : Option ℤ)
    (now : ℕ) :
    (update_analysis_status a st p (some "") now).error_message = a.error_message := by
  simp [update_analysis_status]

/-! ### C5 — status/progress trace invariants -/

/-- The sequence of `(status, progress)` pairs of the analysis record:
the value at creation followed by the result of every
`update_analysis_status` call the orchestrator performs. -/
def pipelineTrace (env : Env) : List (AnalysisStatus × ℤ) :=
  (process_video_background env).trace

/-- The C5 trace invariants as one predicate on a status/progress
trace: progress never decreases (in fact monotone across every pair of
entries); progress 100 occurs only at `completed` or `failed` entries;
every entry after a `completed` entry is `(failed, 100)`; nothing
follows a `failed` entry. -/
abbrev traceOK (t : List (AnalysisStatus × ℤ)) : Prop :=
  t.Pairwise (fun a b => a.2 ≤ b.2) ∧
  (∀ x ∈ t, x.2 = 100 → x.1 = AnalysisStatus.completed ∨ x.1 = AnalysisStatus.failed) ∧
  t.Pairwise (fun a b => a.1 = AnalysisStatus.completed → b = (AnalysisStatus.failed, 100)) ∧
  t.Pairwise (fun a _ => a.1 ≠ AnalysisStatus.failed)

/-- C5 (amended): across every possible run of the pipeline, the
status/progress history satisfies `traceOK`: progress never decreases;
progress 100 occurs only with status `completed` or with status `failed`
when a persistence call raised after the job was already marked
completed (in which case that single `(failed, 100)` entry is the only
thing ever following the `completed` entry); and nothing follows a
`failed` entry. -/
theorem progress_invariant (env : Env) : traceOK (pipelineTrace env) := by
  obtain ⟨vn, emoR, gesR, extR, traR, anaR, pj, sumR,
    f10, f30, f40, f60, f75, f85, fDur, fEmo, fGes, fTra, fIns, fKM, fComp, fVid⟩ := env
  cases f10 with
  | some e => exact (by decide :
      traceOK [(.pending, 0), (.failed, 0)])
  | none =>
  cases emoR with
  | error e => exact (by decide :
      traceOK [(.pending, 0), (.processing, 10), (.failed, 10)])
  | ok vE =>
  cases f30 with
  | some e => exact (by decide :
      traceOK [(.pending, 0), (.processing, 10), (.failed, 10)])
  | none =>
  cases gesR with
  | error e => exact (by decide :
      traceOK [(.pending, 0), (.processing, 10), (.processing, 30), (.failed, 30)])
  | ok vG =>
  cases f40 with
  | some e => exact (by decide :
      traceOK [(.pending, 0), (.processing, 10), (.processing, 30), (.failed, 30)])
  | none =>
  cases extR with
  | error e => exact (by decide :
      traceOK [(.pending, 0), (.processing, 10), (.processing, 30), (.processing, 40),
        (.failed, 40)])
  | ok uX =>
  cases traR with
  | error e => exact (by decide :
      traceOK [(.pending, 0), (.processing, 10), (.processing, 30), (.processing, 40),
        (.failed, 40)])
  | ok vT =>
  cases f60 with
  | some e => exact (by decide :
      traceOK [(.pending, 0), (.processing, 10), (.processing, 30), (.processing, 40),
        (.failed, 40)])
  | none =>
  cases f75 with
  | some e => exact (by decide :
      traceOK [(.pending, 0), (.processing, 10), (.processing, 30), (.processing, 40),
        (.processing, 60), (.failed, 60)])
  | none =>
  cases f85 with
  | some e => exact (by decide :
      traceOK [(.pending, 0), (.processing, 10), (.processing, 30), (.processing, 40),
        (.processing, 60), (.processing, 75), (.failed, 75)])
  | none =>
  cases fDur with
  | some e => exact (by decide :
      traceOK [(.pending, 0), (.processing, 10), (.processing, 30), (.processing, 40),
        (.processing, 60), (.processing, 75), (.processing, 85), (.failed, 85)])
  | none =>
  cases fEmo with
  | some e => exact (by decide :
      traceOK [(.pending, 0), (.processing, 10), (.processing, 30), (.processing, 40),
        (.processing, 60), (.processing, 75), (.processing, 85), (.failed, 85)])
  | none =>
  cases fGes with
  | some e => exact (by decide :
      traceOK [(.pending, 0), (.processing, 10), (.processing, 30), (.processing, 40),
        (.processing, 60), (.processing, 75), (.processing, 85), (.failed, 85)])
  | none =>
  cases fTra with
  | some e => exact (by decide :
      traceOK [(.pending, 0), (.processing, 10), (.processing, 30), (.processing, 40),
        (.processing, 60), (.processing, 75), (.processing, 85), (.failed, 85)])
  | none =>
  cases fIns with
  | some e => exact (by decide :
      traceOK [(.pending, 0), (.processing, 10), (.processing, 30), (.processing, 40),
        (.processing, 60), (.processing, 75), (.processing, 85), (.failed, 85)])
  | none =>
  cases fKM with
  | some e => exact (by decide :
      traceOK [(.pending, 0), (.processing, 10), (.processing, 30), (.processing, 40),
        (.processing, 60), (.processing, 75), (.processing, 85), (.failed, 85)])
  | none =>
  cases fComp with
  | some e => exact (by decide :
      traceOK [(.pending, 0), (.processing, 10), (.processing, 30), (.processing, 40),
        (.processing, 60), (.processing, 75), (.processing, 85), (.failed, 85)])
  | none =>
  cases fVid with
  | some e => exact (by decide :
      traceOK [(.pending, 0), (.processing, 10), (.processing, 30), (.processing, 40),
        (.processing, 60), (.processing, 75), (.processing, 85), (.completed, 100),
        (.failed, 100)])
  | none => exact (by decide :
      traceOK [(.pending, 0), (.processing, 10), (.processing, 30), (.processing, 40),
        (.processing, 60), (.processing, 75), (.processing, 85), (.completed, 100)])

/-! ### C4 — failure semantics -/

/-- C4 (amended): if any stage adapter or persistence call raises, the
run ends with the analysis `failed` and the video marked `failed`; the
error message equals the captured text whenever that text is non-empty
(an exception whose text is empty leaves the message unset, because
`update_analysis_status` only stores truthy texts); and the detail
tables form a prefix of the persistence order — every bulk insert that
completed before the failure left exactly its rows, and no rows from
later stages exist. -/
theorem failure_semantics (env : Env) (e : String) (h : firstError env = some e) :
    (process_video_background env).analysis.status = AnalysisStatus.failed ∧
    (process_video_background env).videoStatus = VideoStatus.failed ∧
    (e ≠ "" → (process_video_background env).analysis.error_message = some e) ∧
    ∃ k : ℕ, k ≤ 5 ∧
      (process_video_background env).emotions
        = (if 1 ≤ k then emotions_for_db (adapterEmotions env) else []) ∧
      (process_video_background env).gestures
        = (if 2 ≤ k then gestures_for_db (adapterGestures env) else []) ∧
      (process_video_background env).transcripts
        = (if 3 ≤ k then transcripts_for_db (adapterTranscript env) else []) ∧
      (process_video_background env).insight
        = (if 4 ≤ k then some (llmInsightRow (pipelineInsights env)) else none) ∧
      (process_video_background env).keyMoments
        = (if 5 ≤ k then key_moments_for_db (identify_key_moments (adapterEmotions env)
            (adapterGestures env) (adapterTranscript env)) else []) := by
  obtain ⟨vn, emoR, gesR, extR, traR, anaR, pj, sumR,
    f10, f30, f40, f60, f75, f85, fDur, fEmo, fGes, fTra, fIns, fKM, fComp, fVid⟩ := env
  cases f10 with
  | some eb =>
    obtain rfl : e = eb := (Option.some.inj h).symm
    exact ⟨rfl, rfl, fun he => by
      show (if e = "" then none else some e) = some e
      rw [if_neg he], 0, by decide, rfl, rfl, rfl, rfl, rfl⟩
  | none =>
  cases emoR with
  | error eb =>
    obtain rfl : e = eb := (Option.some.inj h).symm
    exact ⟨rfl, rfl, fun he => by
      show (if e = "" then none else some e) = some e
      rw [if_neg he], 0, by decide, rfl, rfl, rfl, rfl, rfl⟩
  | ok vE =>
  cases f30 with
  | some eb =>
    obtain rfl : e = eb := (Option.some.inj h).symm
    exact ⟨rfl, rfl, fun he => by
      show (if e = "" then none else some e) = some e
      rw [if_neg he], 0, by decide, rfl, rfl, rfl, rfl, rfl⟩
  | none =>
  cases gesR with
  | error eb =>
    obtain rfl : e = eb := (Option.some.inj h).symm
    exact ⟨rfl, rfl, fun he => by
      show (if e = "" then none else some e) = some e
      rw [if_neg he], 0, by decide, rfl, rfl, rfl, rfl, rfl⟩
  | ok vG =>
  cases f40 with
  | some eb =>
    obtain rfl : e = eb := (Option.some.inj h).symm
    exact ⟨rfl, rfl, fun he => by
      show (if e = "" then none else some e) = some e
      rw [if_neg he], 0, by decide, rfl, rfl, rfl, rfl, rfl⟩
  | none =>
  cases extR with
  | error eb =>
    obtain rfl : e = eb := (Option.some.inj h).symm
    exact ⟨rfl, rfl, fun he => by
      show (if e = "" then none else some e) = some e
      rw [if_neg he], 0, by decide, rfl, rfl, rfl, rfl, rfl⟩
  | ok uX =>
  cases traR with
  | error eb =>
    obtain rfl : e = eb := (Option.some.inj h).symm
    exact ⟨rfl, rfl, fun he => by
      show (if e = "" then none else some e) = some e
      rw [if_neg he], 0, by decide, rfl, rfl, rfl, rfl, rfl⟩
  | ok vT =>
  cases f60 with
  | some eb =>
    obtain rfl : e = eb := (Option.some.inj h).symm
    exact ⟨rfl, rfl, fun he => by
      show (if e = "" then none else some e) = some e
      rw [if_neg he], 0, by decide, rfl, rfl, rfl, rfl, rfl⟩
  | none =>
  cases f75 with
  | some eb =>
    obtain rfl : e = eb := (Option.some.inj h).symm
    exact ⟨rfl, rfl, fun he => by
      show (if e = "" then none else some e) = some e
      rw [if_neg he], 0, by decide, rfl, rfl, rfl, rfl, rfl⟩
  | none =>
  cases f85 with
  | some eb =>
    obtain rfl : e = eb := (Option.some.inj h).symm
    exact ⟨rfl, rfl, fun he => by
      show (if e = "" then none else some e) = some e
      rw [if_neg he], 0, by decide, rfl, rfl, rfl, rfl, rfl⟩
  | none =>
  cases fDur with
  | some eb =>
    obtain rfl : e = eb := (Option.some.inj h).symm
    exact ⟨rfl, rfl, fun he => by
      show (if e = "" then none else some e) = some e
      rw [if_neg he], 0, by decide, rfl, rfl, rfl, rfl, rfl⟩
  | none =>
  cases fEmo with
  | some eb =>
    obtain rfl : e = eb := (Option.some.inj h).symm
    exact ⟨rfl, rfl, fun he => by
      show (if e = "" then none else some e) = some e
      rw [if_neg he], 0, by decide, rfl, rfl, rfl, rfl, rfl⟩
  | none =>
  cases fGes with
  | some eb =>
    obtain rfl : e = eb := (Option.some.inj h).symm
    exact ⟨rfl, rfl, fun he => by
      show (if e = "" then none else some e) = some e
      rw [if_neg he], 1, by decide, rfl, rfl, rfl, rfl, rfl⟩
  | none =>
  cases fTra with
  | some eb =>
    obtain rfl : e = eb := (Option.some.inj h).symm
    exact ⟨rfl, rfl, fun he => by
      show (if e = "" then none else some e) = some e
      rw [if_neg he], 2, by decide, rfl, rfl, rfl, rfl, rfl⟩
  | none =>
  cases fIns with
  | some eb =>
    obtain rfl : e = eb := (Option.some.inj h).symm
    exact ⟨rfl, rfl, fun he => by
      show (if e = "" then none else some e) = some e
      rw [if_neg he], 3, by decide, rfl, rfl, rfl, rfl, rfl⟩
  | none =>
  cases fKM with
  | some eb =>
    obtain rfl : e = eb := (Option.some.inj h).symm
    exact ⟨rfl, rfl, fun he => by
      show (if e = "" then none else some e) = some e
      rw [if_neg he], 4, by decide, rfl, rfl, rfl, rfl, rfl⟩
  | none =>
  cases fComp with
  | some eb =>
    obtain rfl : e = eb := (Option.some.inj h).symm
    exact ⟨rfl, rfl, fun he => by
      show (if e = "" then none else some e) = some e
      rw [if_neg he], 5, by decide, rfl, rfl, rfl, rfl, rfl⟩
  | none =>
  cases fVid with
  | some eb =>
    obtain rfl : e = eb := (Option.some.inj h).symm
    exact ⟨rfl, rfl, fun he => by
      show (if e = "" then none else some e) = some e
      rw [if_neg he], 5, by decide, rfl, rfl, rfl, rfl, rfl⟩
  | none => exact Option.noConfusion h

/-- A fully successful run on empty detector outputs. -/
def envAllOk : Env where
  videoName := "talk.mp4"
  emotionsR := .ok []
  gesturesR := .ok []
  extractR := .ok ()
  transcribeR := .ok []
  analyzeResp := .error "no api key"
  parseJson := fun _ => none
  summaryResp := .ok "A short summary."
  failStatus10 := none
  failStatus30 := none
  failStatus40 := none
  failStatus60 := none
  failStatus75 := none
  failStatus85 := none
  failSetDuration := none
  failEmotionsBulk := none
  failGesturesBulk := none
  failTranscriptsBulk := none
  failInsightCreate := none
  failKeyMomentsBulk := none
  failStatusCompleted := none
  failVideoCompleted := none

/-- A run in which the transcript bulk insert raises. -/
def envTraFail : Env :=
  { envAllOk with failTranscriptsBulk := some "disk full" }

/-- A run in which an adapter raises an exception with empty text. -/
def envEmptyError : Env :=
  { envAllOk with emotionsR := .error "" }

/-- A run in which marking the video completed raises, after the
analysis was already marked completed. -/
def envPostCompleteFail : Env :=
  { envAllOk with failVideoCompleted := some "db down" }

/-- Witness for `failure_semantics`: the transcript bulk insert fails;
emotion and gesture rows are intact, later tables are empty. -/
theorem failure_semantics_witness :
    firstError envTraFail = some "disk full" ∧
    ("disk full" ≠ "" → (process_video_background envTraFail).analysis.error_message
      = some "disk full") ∧
    (process_video_background envTraFail).analysis.status = AnalysisStatus.failed :=
  ⟨rfl, (failure_semantics envTraFail "disk full" rfl).2.2.1,
    (failure_semantics envTraFail "disk full" rfl).1⟩

/-- Counterexample to C4 as stated: an exception whose text is empty
marks the job failed but leaves `error_message` unset (`None`), so the
job does not carry a non-empty error message equal to the captured
text. -/
theorem failure_empty_error_cex :
    firstError envEmptyError = some "" ∧
    (process_video_background envEmptyError).analysis.status = AnalysisStatus.failed ∧
    (process_video_background envEmptyError).analysis.error_message = none :=
  ⟨rfl, rfl, rfl⟩

/-- Counterexample to C5 as stated: when marking the video completed
raises after the completion update, the analysis transitions
`completed → failed` while keeping progress 100 — so progress is 100
with a status other than `completed`, and the status changed after
`completed`. -/
theorem progress_after_completed_cex :
    pipelineTrace envPostCompleteFail
      = [(.pending, 0), (.processing, 10), (.processing, 30), (.processing, 40),
         (.processing, 60), (.processing, 75), (.processing, 85), (.completed, 100),
         (.failed, 100)] ∧
    (AnalysisStatus.failed, (100 : ℤ)) ∈ pipelineTrace envPostCompleteFail ∧
    AnalysisStatus.failed ≠ AnalysisStatus.completed := by
  refine ⟨rfl, ?_, by decide⟩
  rw [(rfl : pipelineTrace envPostCompleteFail
      = [(.pending, 0), (.processing, 10), (.processing, 30), (.processing, 40),
         (.processing, 60), (.processing, 75), (.processing, 85), (.completed, 100),
         (.failed, 100)])]
  decide

/-- Witness for `progress_invariant` at a concrete successful run. -/
theorem progress_invariant_witness : traceOK (pipelineTrace envAllOk) :=
  progress_invariant envAllOk

/-! ### C8 — progress subscription -/

theorem drop_append_of_le {α : Type} (n : ℕ) :
    ∀ (l₁ l₂ : List α), n ≤ l₁.length → (l₁ ++ l₂).drop n = l₁.drop n ++ l₂ := by
  induction n with
  | zero => intro l₁ l₂ _; simp
  | succ n ih =>
    intro l₁ l₂ h
    cases l₁ with
    | nil => simp at h
    | cons a l₁ =>
      simp only [List.cons_append, List.drop_succ_cons]
      exact ih l₁ l₂ (by simpa using h)

theorem enumFrom_append {α : Type} (l₁ : List α) :
    ∀ (n : ℕ) (l₂ : List α),
      List.enumFrom n (l₁ ++ l₂) = List.enumFrom n l₁ ++ List.enumFrom (n + l₁.length) l₂ := by
  induction l₁ with
  | nil => intro n l₂; simp
  | cons a l₁ ih =>
    intro n l₂
    simp only [List.cons_append, List.enumFrom_cons, ih (n + 1) l₂, List.length_cons]
    rw [Nat.add_assoc, Nat.add_comm 1 l₁.length, ← Nat.add_assoc]

theorem enumFrom_glue {α : Type} (A t : List α) (idx : ℕ) (hidx : idx ≤ A.length) :
    List.enumFrom idx (A.drop idx) ++ List.enumFrom A.length t
      = List.enumFrom idx ((A ++ t).drop idx) := by
  rw [drop_append_of_le idx A t hidx, enumFrom_append]
  congr 2
  rw [List.length_drop]
  omega

theorem streamEvents_nil (idx : ℕ) : streamEvents idx [] = ([], false) := rfl

theorem streamEvents_cons (idx : ℕ) (msgs : List String) (rest : List (List String)) :
    streamEvents idx (msgs :: rest)
      = if checkDone msgs then
          (List.enumFrom idx (msgs.drop idx) ++ [(max idx msgs.length, "DONE")], true)
        else
          (List.enumFrom idx (msgs.drop idx) ++ (streamEvents (max idx msgs.length) rest).1,
            (streamEvents (max idx msgs.length) rest).2) := by
  rw [streamEvents]

/-- One poll iteration after another: a subscription that starts with
`idx` messages already sent against a monotone sequence of log
snapshots stops at some snapshot `L`; it emits exactly the messages of
`L` beyond `idx`, indexed consecutively, followed by a `DONE` event
exactly when the per-message sentinel check succeeds on `L` — which
happens at some snapshot exactly when it happens at any. -/
theorem streamEvents_spec (rest : List (List String)) :
    ∀ (b0 : List String) (idx : ℕ),
      (b0 :: rest).Chain' (· <+: ·) → idx ≤ b0.length →
      ∃ L, L ∈ b0 :: rest ∧ b0 <+: L ∧ idx ≤ L.length ∧
        (streamEvents idx (b0 :: rest)).2 = checkDone L ∧
        (streamEvents idx (b0 :: rest)).2 = (b0 :: rest).any checkDone ∧
        (streamEvents idx (b0 :: rest)).1
          = List.enumFrom idx (L.drop idx) ++
            (if (streamEvents idx (b0 :: rest)).2 then [(L.length, "DONE")] else []) := by
  induction rest with
  | nil =>
    intro b0 idx hch hidx
    refine ⟨b0, List.mem_cons_self _ _, List.prefix_refl _, hidx, ?_, ?_, ?_⟩ <;>
      rw [streamEvents_cons] <;>
        by_cases h : checkDone b0 <;>
          simp [h, streamEvents_nil, Nat.max_eq_right hidx]
  | cons b1 rest ih =>
    intro b0 idx hch hidx
    obtain ⟨hpre01, hch'⟩ := List.chain'_cons.1 hch
    by_cases h : checkDone b0
    · refine ⟨b0, List.mem_cons_self _ _, List.prefix_refl _, hidx, ?_, ?_, ?_⟩ <;>
        rw [streamEvents_cons] <;> simp [h, Nat.max_eq_right hidx]
    · obtain ⟨L, hmem, hpre1L, hlen, hdone, hany, hev⟩ :=
        ih b1 b0.length hch' hpre01.length_le
      have hpre0L : b0 <+: L := hpre01.trans hpre1L
      rw [streamEvents_cons, if_neg h, Nat.max_eq_right hidx]
      refine ⟨L, List.mem_cons_of_mem _ hmem, hpre0L, le_trans hidx hpre0L.length_le,
        hdone, ?_, ?_⟩
      · rw [hany]
        simp [h]
      · obtain ⟨t, rfl⟩ := hpre0L
        have hglue := enumFrom_glue b0 t idx hidx
        have hLd : (b0 ++ t).drop b0.length = t := List.drop_left b0 t
        rw [hev, hLd, ← List.append_assoc, hglue]

/-- C8 (amended): against any monotone run of the log, a subscription
emits exactly the messages of the snapshot `L` at which it stops, in
append order indexed from 0 — in particular all messages already in the
log when it starts, since the starting snapshot is a prefix of `L` —
followed by a `DONE` event exactly when a delivered message passes the
code's sentinel test (`"Analysis completed"` as a case-sensitive
substring, or `"error"` as a case-insensitive substring); it never emits
`DONE` when no snapshot contains such a message. -/
theorem subscription_spec (b0 : List String) (rest : List (List String))
    (hch : (b0 :: rest).Chain' (· <+: ·)) :
    ∃ L, L ∈ b0 :: rest ∧ b0 <+: L ∧
      (stream_progress (b0 :: rest)).1
        = L.enum ++ (if (stream_progress (b0 :: rest)).2 then [(L.length, "DONE")] else []) ∧
      (stream_progress (b0 :: rest)).2 = checkDone L ∧
      (stream_progress (b0 :: rest)).2 = (b0 :: rest).any checkDone := by
  obtain ⟨L, hmem, hpre, -, hdone, hany, hev⟩ :=
    streamEvents_spec rest b0 0 hch (Nat.zero_le _)
  refine ⟨L, hmem, hpre, ?_, hdone, hany⟩
  simpa [stream_progress, List.enum] using hev

/-- Witness for `subscription_spec`: a log of one message extended by an
error message; the subscription delivers both and terminates. -/
theorem subscription_spec_witness :
    ((["📹 up"] : List String) :: [["📹 up", "⚠ Error: boom"]]).Chain' (· <+: ·) ∧
    (∃ L, L ∈ (["📹 up"] : List String) :: [["📹 up", "⚠ Error: boom"]] ∧
      (["📹 up"] : List String) <+: L ∧
      (stream_progress (["📹 up"] :: [["📹 up", "⚠ Error: boom"]])).1
        = L.enum ++ (if (stream_progress (["📹 up"] :: [["📹 up", "⚠ Error: boom"]])).2
            then [(L.length, "DONE")] else []) ∧
      (stream_progress (["📹 up"] :: [["📹 up", "⚠ Error: boom"]])).2 = checkDone L ∧
      (stream_progress (["📹 up"] :: [["📹 up", "⚠ Error: boom"]])).2
        = ((["📹 up"] : List String) :: [["📹 up", "⚠ Error: boom"]]).any checkDone) := by
  have hch : ((["📹 up"] : List String) :: [["📹 up", "⚠ Error: boom"]]).Chain' (· <+: ·) :=
    List.chain'_cons.2 ⟨⟨["⚠ Error: boom"], rfl⟩, List.chain'_singleton _⟩
  exact ⟨hch, subscription_spec _ _ hch⟩

/-- Counterexample to C8 as stated: the message "analysis completed"
matches the spec's case-insensitive completion sentinel, yet the
subscription — whose check is `"Analysis completed" in msg`,
case-sensitive — delivers it and keeps polling without ever emitting
`DONE`. -/
theorem subscription_case_cex :
    specSentinelHit "analysis completed" = true ∧
    sentinelHit "analysis completed" = false ∧
    (stream_progress [["analysis completed"], ["analysis completed"]]).1
      = [(0, "analysis completed")] ∧
    (stream_progress [["analysis completed"], ["analysis completed"]]).2 = false := by
  decide

end GrowQR
